import Mathlib

/-!
# Verification of the maps retrieval core of `d13-business-prospector`

Shallow embedding of the dual-source business-search core:

* `ExponentialBackoffRateLimiter` (`src/core/maps/rate-limiter.ts`):
  the retryable-error classifier, the `retryWithBackoff` recursion and the
  FIFO pacing queue (the latter as a small-step transition system).
* `GooglePlacesClient` (`src/core/maps/google-places-client.ts`):
  input validation, status handling and the 429 translation.
* `GoogleMapsScraper` (`src/core/maps/google-maps-scraper.ts`):
  input validation and the robots.txt policy gate.
* `MapsClient` (the unified orchestrator): source selection, fallback,
  mapping and truncation, plus constructor-time configuration validation
  against the `MapsConfigManager` singleton.

JavaScript numbers are modelled as `ℚ` (for delays, multipliers and
coordinates) or `Nat`/`Int` where the code only ever compares integers.
Thrown errors are modelled as a `JsError` record carrying the three fields
the code inspects (`response.status`, `code`, `message`); asynchronous
operations become explicit oracles (one outcome per attempt), and side
effects (network requests, browser activity) become explicit event traces
so that "no I/O happened" is a statement about a trace.
-/

/-- The fields of a thrown JS error value that the rate limiter's
classifier and the clients inspect: `error.response?.status`,
`error.code`, `error.message`.  A plain `new Error(msg)` has only
`message`. -/
structure JsError where
  responseStatus : Option Nat
  code : Option String
  message : Option String
deriving DecidableEq, Repr

/-- `new Error(msg)`. -/
def strError (msg : String) : JsError :=
  { responseStatus := none, code := none, message := some msg }

/-- Does the second character list occur at the start of the first? -/
def charsHavePrefix : List Char → List Char → Bool
  | _, [] => true
  | [], _ :: _ => false
  | a :: s, b :: t => a = b && charsHavePrefix s t

/-- Does the second character list occur contiguously anywhere in the
first?  (The empty list occurs everywhere.) -/
def charsContain : List Char → List Char → Bool
  | [], sub => charsHavePrefix [] sub
  | a :: rest, sub => charsHavePrefix (a :: rest) sub || charsContain rest sub

/-- JS `s.includes(sub)`: case-sensitive contiguous substring containment;
`includes('')` is always true. -/
def jsIncludes (s sub : String) : Bool :=
  charsContain s.data sub.data

/-- `ExponentialBackoffRateLimiter.isRetryableError` (rate-limiter.ts:83-94):
HTTP 429/503/504, `ECONNRESET`/`ETIMEDOUT`, or a message containing
`"timeout"` or `"network"` (case-sensitive). -/
def isRetryableError (e : JsError) : Bool :=
  if e.responseStatus = some 429 then true
  else if e.responseStatus = some 503 then true
  else if e.responseStatus = some 504 then true
  else if e.code = some "ECONNRESET" then true
  else if e.code = some "ETIMEDOUT" then true
  else if (match e.message with | some m => jsIncludes m "timeout" | none => false) then true
  else if (match e.message with | some m => jsIncludes m "network" | none => false) then true
  else false

/-- The rate-limiting parameters held by one
`ExponentialBackoffRateLimiter` instance (after constructor defaulting). -/
structure RateConfig where
  requestsPerSecond : Nat
  maxRetries : Nat
  baseDelay : ℚ
  maxDelay : ℚ
  backoffMultiplier : ℚ
deriving DecidableEq, Repr

/-- Observable outcome of one `retryWithBackoff` run: the final result,
how many times the wrapped operation was invoked, and the backoff delays
awaited between invocations, in order. -/
structure RetryTrace (α : Type) where
  result : Except JsError α
  invocations : Nat
  delays : List ℚ

/-- Recursive core of `retryWithBackoff` (rate-limiter.ts:57-81).
The operation is an oracle indexed by the attempt counter (`retryCount`
in the source).  `remaining` is `maxRetries - retryCount`; the source
guard `retryCount >= this.maxRetries` is exactly `remaining = 0` because
every call keeps the invariant `remaining + retryCount = maxRetries`.
On a retryable failure with retries left the code waits
`min(baseDelay * backoffMultiplier ^ retryCount, maxDelay)` and recurses
with `retryCount + 1`. -/
def retryGo (cfg : RateConfig) (op : Nat → Except JsError α) :
    Nat → Nat → RetryTrace α
  | 0, retryCount =>
    match op retryCount with
    | .ok v => { result := .ok v, invocations := 1, delays := [] }
    | .error e => { result := .error e, invocations := 1, delays := [] }
  | r + 1, retryCount =>
    match op retryCount with
    | .ok v => { result := .ok v, invocations := 1, delays := [] }
    | .error e =>
      if isRetryableError e then
        let d := min (cfg.baseDelay * cfg.backoffMultiplier ^ retryCount) cfg.maxDelay
        let rest := retryGo cfg op r (retryCount + 1)
        { result := rest.result, invocations := rest.invocations + 1,
          delays := d :: rest.delays }
      else
        { result := .error e, invocations := 1, delays := [] }

/-- `retryWithBackoff(operation)` with the default `retryCount = 0`. -/
def retryWithBackoff (cfg : RateConfig) (op : Nat → Except JsError α) : RetryTrace α :=
  retryGo cfg op cfg.maxRetries 0

/-- The delay formula for the backoff before retry number `k`. -/
def backoffDelay (cfg : RateConfig) (k : Nat) : ℚ :=
  min (cfg.baseDelay * cfg.backoffMultiplier ^ k) cfg.maxDelay

theorem retryGo_all_retryable (cfg : RateConfig) (op : Nat → Except JsError α) :
    ∀ r c, (∀ k, c ≤ k → k ≤ c + r → ∃ e, op k = .error e ∧ isRetryableError e = true) →
      (retryGo cfg op r c).invocations = r + 1 ∧
      (retryGo cfg op r c).delays = (List.range' c r).map (backoffDelay cfg) ∧
      (retryGo cfg op r c).result.isOk = false := by
  intro r
  induction r with
  | zero =>
    intro c h
    obtain ⟨e, he, _⟩ := h c le_rfl (by omega)
    simp [retryGo, he, Except.isOk, Except.toBool]
  | succ r ih =>
    intro c h
    obtain ⟨e, he, hre⟩ := h c le_rfl (by omega)
    have hrest := ih (c + 1) (fun k hk1 hk2 => h k (by omega) (by omega))
    simp only [retryGo, he, hre, if_true]
    refine ⟨by simpa using hrest.1, ?_, by simpa using hrest.2.2⟩
    rw [show List.range' c (r + 1) = c :: List.range' (c + 1) r from List.range'_succ c r 1]
    simp only [List.map_cons]
    exact congrArg (_ :: ·) hrest.2.1

/-- **C3**: an operation that fails with a retryable error on every attempt
is invoked exactly `maxRetries + 1` times by `retryWithBackoff`, and the
wait before retry `k` (counting from 0) is
`min(baseDelay * backoffMultiplier ^ k, maxDelay)` milliseconds. -/
theorem retryWithBackoff_exhausts_retries (cfg : RateConfig)
    (op : Nat → Except JsError α)
    (hfail : ∀ k, ∃ e, op k = .error e ∧ isRetryableError e = true) :
    (retryWithBackoff cfg op).invocations = cfg.maxRetries + 1 ∧
    (retryWithBackoff cfg op).delays =
      (List.range cfg.maxRetries).map (backoffDelay cfg) := by
  have h := retryGo_all_retryable cfg op cfg.maxRetries 0 (fun k _ _ => hfail k)
  exact ⟨h.1, by rw [retryWithBackoff, h.2.1, List.range_eq_range']⟩

/-- An operation failing every attempt with HTTP 503 (retryable). -/
def always503 : Nat → Except JsError Unit :=
  fun _ => .error { responseStatus := some 503, code := none, message := none }

/-- A rate-limiter configuration matching the source defaults. -/
def rcfgDefault : RateConfig :=
  { requestsPerSecond := 10, maxRetries := 3, baseDelay := 1000,
    maxDelay := 30000, backoffMultiplier := 2 }

/-- Witness for C3 at the default configuration and a persistent 503. -/
theorem retryWithBackoff_exhausts_retries_witness :
    (∀ k, ∃ e, always503 k = .error e ∧ isRetryableError e = true) ∧
    (retryWithBackoff rcfgDefault always503).invocations = rcfgDefault.maxRetries + 1 ∧
    (retryWithBackoff rcfgDefault always503).delays =
      (List.range rcfgDefault.maxRetries).map (backoffDelay rcfgDefault) :=
  ⟨fun _ => ⟨_, rfl, by decide⟩,
   retryWithBackoff_exhausts_retries rcfgDefault always503 (fun _ => ⟨_, rfl, by decide⟩)⟩

/-- If the first attempt fails non-retryably, `retryWithBackoff` stops at
once with that very error (the guard `retryCount >= maxRetries` also stops
after one attempt when `maxRetries = 0`). -/
theorem retryWithBackoff_stops_on_non_retryable (cfg : RateConfig)
    (op : Nat → Except JsError α) (e : JsError)
    (h0 : op 0 = .error e) (hnr : isRetryableError e = false) :
    retryWithBackoff cfg op =
      { result := .error e, invocations := 1, delays := [] } := by
  rw [retryWithBackoff]
  cases cfg.maxRetries with
  | zero => simp [retryGo, h0]
  | succ r => simp [retryGo, h0, hnr]

/-- **C4**: an operation whose first attempt fails with a non-retryable
error (no 429/503/504 response status, no `ECONNRESET`/`ETIMEDOUT` code,
and a message containing neither the case-sensitive substring `"timeout"`
nor `"network"`) is invoked exactly once, with no backoff waits, and the
identical error value propagates to the caller. -/
theorem retryWithBackoff_non_retryable_once (cfg : RateConfig)
    (op : Nat → Except JsError α) (e : JsError)
    (h0 : op 0 = .error e)
    (h429 : e.responseStatus ≠ some 429)
    (h503 : e.responseStatus ≠ some 503)
    (h504 : e.responseStatus ≠ some 504)
    (hcr : e.code ≠ some "ECONNRESET")
    (hct : e.code ≠ some "ETIMEDOUT")
    (hmsg : ∀ m, e.message = some m →
      jsIncludes m "timeout" = false ∧ jsIncludes m "network" = false) :
    retryWithBackoff cfg op =
      { result := .error e, invocations := 1, delays := [] } := by
  have hnr : isRetryableError e = false := by
    unfold isRetryableError
    rcases hm : e.message with _ | m
    · simp [h429, h503, h504, hcr, hct, hm]
    · have hms := hmsg m hm
      simp [h429, h503, h504, hcr, hct, hm, hms.1, hms.2]
  exact retryWithBackoff_stops_on_non_retryable cfg op e h0 hnr

/-- A plain HTTP 400 failure: not retryable. -/
def badRequestErr : JsError :=
  { responseStatus := some 400, code := none, message := some "Bad Request" }

/-- An operation failing every attempt with HTTP 400. -/
def alwaysBadRequest : Nat → Except JsError Unit := fun _ => .error badRequestErr

/-- Witness for C4: a persistent 400 is invoked once and surfaces the same
error value. -/
theorem retryWithBackoff_non_retryable_once_witness :
    alwaysBadRequest 0 = .error badRequestErr ∧
    retryWithBackoff rcfgDefault alwaysBadRequest =
      { result := .error badRequestErr, invocations := 1, delays := [] } :=
  ⟨rfl,
   retryWithBackoff_non_retryable_once rcfgDefault alwaysBadRequest badRequestErr rfl
     (by decide) (by decide) (by decide) (by decide) (by decide)
     (fun m hm => by
       simp only [badRequestErr, Option.some.injEq] at hm
       subst hm
       exact ⟨by decide, by decide⟩)⟩

/-- JS truthiness of a possibly-undefined string: `undefined` and `""`
are falsy. -/
def optStrTruthy : Option String → Bool
  | none => false
  | some s => s ≠ ""

/-- JS `a || b` where `a` is a possibly-undefined string and `b` a string:
take `b` when `a` is absent or empty. -/
def jsOrString (o : Option String) (d : String) : String :=
  match o with
  | none => d
  | some s => if s = "" then d else s

/-- JS template interpolation of a possibly-undefined string
(`undefined` prints as `"undefined"`). -/
def jsInterp (o : Option String) : String :=
  match o with
  | none => "undefined"
  | some s => s

/-- JS `!s || s.trim() === ''`: the string is empty or whitespace-only. -/
def jsBlank (s : String) : Bool := s.data.all Char.isWhitespace

/-- A latitude/longitude pair (JS numbers as `ℚ`). -/
structure GeoLocation where
  latitude : ℚ
  longitude : ℚ
deriving DecidableEq, Repr

/-- One raw entry of the Places text-search response
(`response.data.results[i]`), with exactly the fields the client reads;
absent JS properties are `none`. -/
structure RawPlace where
  place_id : Option String
  name : Option String
  formatted_address : Option String
  lat : Option ℚ
  lng : Option ℚ
  rating : Option ℚ
  user_ratings_total : Option Nat
  types : Option (List String)
  business_status : Option String
  price_level : Option Nat
deriving DecidableEq, Repr

/-- `BusinessSearchResult` (google-places-client.ts:3-16). -/
structure BusinessSearchResult where
  id : String
  name : String
  address : String
  location : GeoLocation
  rating : Option ℚ
  reviewCount : Option Nat
  types : Option (List String)
  businessStatus : Option String
  priceLevel : Option Nat
deriving DecidableEq, Repr

/-- `GooglePlacesClient.isValidSearchResult`: truthy `place_id`, `name`
and `formatted_address`, and both coordinates present
(`!== undefined`, so `0` is allowed). -/
def isValidSearchResult (r : RawPlace) : Bool :=
  optStrTruthy r.place_id && optStrTruthy r.name &&
    optStrTruthy r.formatted_address && r.lat.isSome && r.lng.isSome

/-- `GooglePlacesClient.mapSearchResults`: drop invalid entries, then map
field-for-field. -/
def mapSearchResults (results : List RawPlace) : List BusinessSearchResult :=
  (results.filter isValidSearchResult).map fun r =>
    { id := r.place_id.getD ""
      name := r.name.getD ""
      address := r.formatted_address.getD ""
      location := { latitude := r.lat.getD 0, longitude := r.lng.getD 0 }
      rating := r.rating
      reviewCount := r.user_ratings_total
      types := r.types
      businessStatus := r.business_status
      priceLevel := r.price_level }

/-- The body of the Places text-search HTTP response
(`response.data`). -/
structure PlacesResponse where
  status : String
  error_message : Option String
  results : Option (List RawPlace)
deriving DecidableEq, Repr

/-- A rejected transport call (axios threw): the fields the client and the
rate limiter inspect, plus whether `axios.isAxiosError` holds for it. -/
structure TransportError where
  isAxiosError : Bool
  responseStatus : Option Nat
  code : Option String
  message : Option String
deriving DecidableEq, Repr

/-- The thrown transport failure as the catch-all rethrow surfaces it. -/
def TransportError.toJsError (t : TransportError) : JsError :=
  { responseStatus := t.responseStatus, code := t.code, message := t.message }

/-- I/O performed by one places-client search call. -/
inductive PlacesEffect
  | rateLimiterWait
  | httpRequest
deriving DecidableEq, Repr

/-- `GooglePlacesClient.searchBusinesses` (google-places-client.ts:51-105)
over a transport oracle: validate the arguments, wait on the rate limiter
and issue the request, then interpret the response status.  A transport
429 is translated into the fixed rate-limit message; other transport
failures rethrow unchanged.  The returned trace lists the I/O performed. -/
def placesSearchBusinesses (query location : String)
    (transport : Except TransportError PlacesResponse) :
    Except JsError (List BusinessSearchResult) × List PlacesEffect :=
  if jsBlank query then (.error (strError "Query is required"), [])
  else if jsBlank location then (.error (strError "Location is required"), [])
  else
    let effs := [PlacesEffect.rateLimiterWait, PlacesEffect.httpRequest]
    match transport with
    | .error t =>
      if t.isAxiosError && t.responseStatus = some 429 then
        (.error (strError "Rate limit exceeded. Please try again later."), effs)
      else (.error t.toJsError, effs)
    | .ok resp =>
      if resp.status = "REQUEST_DENIED" then
        (.error (strError ("Google Places API error: " ++ jsInterp resp.error_message)),
         effs)
      else if resp.status = "ZERO_RESULTS" then (.ok [], effs)
      else if resp.status ≠ "OK" then
        (.error (strError ("Google Places API error: " ++
           jsOrString resp.error_message resp.status)), effs)
      else (.ok (mapSearchResults (resp.results.getD [])), effs)

/-- **C9**: for a non-blank query and location, a `ZERO_RESULTS` status
yields `ok []` (not a failure); `REQUEST_DENIED` fails with an error
carrying the source's own `error_message`; and any other non-`OK` status
fails with a descriptive error naming the message or the status. -/
theorem placesSearch_status_handling (query location : String)
    (resp : PlacesResponse)
    (hq : jsBlank query = false) (hl : jsBlank location = false) :
    (resp.status = "ZERO_RESULTS" →
      (placesSearchBusinesses query location (.ok resp)).1 = .ok []) ∧
    (∀ m, resp.status = "REQUEST_DENIED" → resp.error_message = some m →
      (placesSearchBusinesses query location (.ok resp)).1 =
        .error (strError ("Google Places API error: " ++ m))) ∧
    (resp.status ≠ "OK" → resp.status ≠ "ZERO_RESULTS" →
      resp.status ≠ "REQUEST_DENIED" →
      (placesSearchBusinesses query location (.ok resp)).1 =
        .error (strError ("Google Places API error: " ++
          jsOrString resp.error_message resp.status))) := by
  refine ⟨fun hz => ?_, fun m hd hm => ?_, fun hok hz hd => ?_⟩
  · unfold placesSearchBusinesses
    simp [hq, hl, hz]
  · unfold placesSearchBusinesses
    simp [hq, hl, hd, jsInterp, hm]
  · unfold placesSearchBusinesses
    simp [hq, hl, hok, hz, hd]

/-- Witness for C9 at concrete inputs: a zero-results response returns an
empty list, a denied response surfaces the source message, and an
`INVALID_REQUEST` with no message falls back to the status text. -/
theorem placesSearch_status_handling_witness :
    jsBlank "coffee shops" = false ∧ jsBlank "Tampa, FL" = false ∧
    (placesSearchBusinesses "coffee shops" "Tampa, FL"
       (.ok { status := "ZERO_RESULTS", error_message := none, results := none })).1
      = .ok [] ∧
    (placesSearchBusinesses "coffee shops" "Tampa, FL"
       (.ok { status := "REQUEST_DENIED", error_message := some "key invalid",
              results := none })).1
      = .error (strError "Google Places API error: key invalid") ∧
    (placesSearchBusinesses "coffee shops" "Tampa, FL"
       (.ok { status := "INVALID_REQUEST", error_message := none, results := none })).1
      = .error (strError "Google Places API error: INVALID_REQUEST") :=
  ⟨rfl, rfl,
   (placesSearch_status_handling "coffee shops" "Tampa, FL"
      { status := "ZERO_RESULTS", error_message := none, results := none }
      rfl rfl).1 rfl,
   (placesSearch_status_handling "coffee shops" "Tampa, FL"
      { status := "REQUEST_DENIED", error_message := some "key invalid", results := none }
      rfl rfl).2.1 "key invalid" rfl rfl,
   (placesSearch_status_handling "coffee shops" "Tampa, FL"
      { status := "INVALID_REQUEST", error_message := none, results := none }
      rfl rfl).2.2 (by decide) (by decide) (by decide)⟩

/-- JS `x || undefined` on a possibly-undefined string: empty collapses to
absent. -/
def jsOrUndefined : Option String → Option String
  | none => none
  | some s => if s = "" then none else some s

/-- Trim JS whitespace from both ends of a character list. -/
def trimChars (cs : List Char) : List Char :=
  ((cs.dropWhile Char.isWhitespace).reverse.dropWhile Char.isWhitespace).reverse

/-- JS `s.split(sep)` over character lists (keeps empty chunks, as JS
does). -/
def splitChars (sep : Char) : List Char → List (List Char)
  | [] => [[]]
  | c :: rest =>
    match splitChars sep rest with
    | [] => [[]]
    | h :: t => if c = sep then [] :: h :: t else (c :: h) :: t

/-- One raw record pushed by the scraper's in-page extraction
(`page.evaluate`, google-maps-scraper.ts:86-120).  The DOM selectors and
the `parseFloat`/`parseInt` text-to-number parsing are a spec non-goal and
are abstracted: fields arrive already typed, absent when the element was
missing or the parse failed. -/
structure ScrapedRaw where
  name : String
  address : String
  rating : Option ℚ
  reviewCount : Option Nat
  phone : Option String
  website : Option String
  businessUrl : Option String
deriving DecidableEq, Repr

/-- `ScrapedBusinessResult` (google-maps-scraper.ts:13-21). -/
structure ScrapedBusinessResult where
  name : String
  address : String
  rating : Option ℚ
  reviewCount : Option Nat
  phone : Option String
  website : Option String
  businessUrl : Option String
deriving DecidableEq, Repr

/-- `GoogleMapsScraper.isValidScrapedResult`: truthy name and address. -/
def isValidScrapedResult (r : ScrapedRaw) : Bool :=
  r.name ≠ "" && r.address ≠ ""

/-- `GoogleMapsScraper.mapScrapedResults`: keep valid records, collapse
empty optional texts to absent. -/
def mapScrapedResults (results : List ScrapedRaw) : List ScrapedBusinessResult :=
  (results.filter isValidScrapedResult).map fun r =>
    { name := r.name
      address := r.address
      rating := r.rating
      reviewCount := r.reviewCount
      phone := jsOrUndefined r.phone
      website := jsOrUndefined r.website
      businessUrl := jsOrUndefined r.businessUrl }

/-- The `for (const line of lines)` loop of
`GoogleMapsScraper.respectRobotsTxt` (google-maps-scraper.ts:282-296):
track whether the current `User-agent:` section matches `*` or
`GoogleBot`; inside a matching section a `Disallow:` whose trimmed path is
exactly `/maps` or `/` blocks (returns `false`); reaching the end allows.
`split(':')[1]` is modelled by `(splitChars ':' _).get? 1`. -/
def robotsLinesAllow : List (List Char) → Bool → Bool
  | [], _ => true
  | line :: rest, isOurSection =>
    let t := trimChars line
    let sectionNow :=
      if charsHavePrefix t ("User-agent:".data) then
        match (splitChars ':' t).get? 1 with
        | some ua =>
          let u := trimChars ua
          u = "*".data || u = "GoogleBot".data
        | none => false
      else isOurSection
    if sectionNow && charsHavePrefix t ("Disallow:".data) then
      match (splitChars ':' t).get? 1 with
      | some p =>
        let dp := trimChars p
        if dp = "/maps".data || dp = "/".data then false
        else robotsLinesAllow rest sectionNow
      | none => robotsLinesAllow rest sectionNow
    else robotsLinesAllow rest sectionNow

/-- `GoogleMapsScraper.respectRobotsTxt` applied to a successfully fetched
robots.txt body (google-maps-scraper.ts:265-298): a global substring check
for `"Disallow: /maps"` anywhere in the document, then the per-section
scan.  Returns whether scraping is allowed. -/
def respectRobotsTxt (robotsTxt : String) : Bool :=
  if jsIncludes robotsTxt "Disallow: /maps" then false
  else robotsLinesAllow (splitChars '\n' robotsTxt.data) false

/-- Per the spec's words (§4.3 policy gate and its §9 open question): the
document blocks exactly when a user-agent section matching the scraper
(wildcard `*` or the named bot identifier) disallows the relevant path
`/maps`, or disallows the site root `/`, with exact path matching.  This
is the claim-side reading to compare the code against; it has no global
substring check. -/
def specRobotsSectionBlocks (robotsTxt : String) : Bool :=
  !(robotsLinesAllow (splitChars '\n' robotsTxt.data) false)

/-- I/O performed by one scraper search call. -/
inductive ScrapeEffect
  | robotsFetch
  | pageNavigation
deriving DecidableEq, Repr

/-- Browser phase of the scraper search: navigate, wait for results,
extract; the page oracle is the outcome (navigation/timeout failures are
its `error` case). -/
def scraperNavigate (page : Except JsError (List ScrapedRaw))
    (effs : List ScrapeEffect) :
    Except JsError (List ScrapedBusinessResult) × List ScrapeEffect :=
  match page with
  | .ok rows => (.ok (mapScrapedResults rows), effs ++ [ScrapeEffect.pageNavigation])
  | .error e => (.error e, effs ++ [ScrapeEffect.pageNavigation])

/-- `GoogleMapsScraper.searchBusinesses` (google-maps-scraper.ts:52-126):
validate arguments; when `respectRobots` is set, fetch the policy
(`robotsDoc = none` means the fetch itself failed, in which case the code
proceeds fail-open) and stop with the policy-denial error when blocked;
otherwise drive the browser. -/
def scraperSearchBusinesses (respectRobots : Bool) (query location : String)
    (robotsDoc : Option String)
    (page : Except JsError (List ScrapedRaw)) :
    Except JsError (List ScrapedBusinessResult) × List ScrapeEffect :=
  if jsBlank query then (.error (strError "Query is required"), [])
  else if jsBlank location then (.error (strError "Location is required"), [])
  else if respectRobots then
    let allowed :=
      match robotsDoc with
      | none => true
      | some txt => respectRobotsTxt txt
    if allowed then scraperNavigate page [ScrapeEffect.robotsFetch]
    else (.error (strError "Scraping not allowed by robots.txt"),
          [ScrapeEffect.robotsFetch])
  else scraperNavigate page []

/-- Counterexample to C5: a document whose only `Disallow: /maps` sits
under a non-matching `User-agent: OtherBot` section blocks scraping via
the global substring check, although no section matching the scraper
disallows anything — so "policy denial only if a matching section
disallows" fails on the code. -/
theorem robots_denial_without_matching_section :
    specRobotsSectionBlocks "User-agent: OtherBot\nDisallow: /maps" = false ∧
    (scraperSearchBusinesses true "coffee" "Tampa"
        (some "User-agent: OtherBot\nDisallow: /maps") (.ok [])).1
      = .error (strError "Scraping not allowed by robots.txt") :=
  ⟨rfl, rfl⟩

/-- **C5 (amended)**: with a fetched policy document the call fails with
the policy-denial error (and performs no browser navigation) iff the
document contains the substring `"Disallow: /maps"` anywhere, or a
user-agent section matching the scraper disallows exactly `/maps` or the
root `/`; when the policy fetch fails the client proceeds to the browser
(fail-open). -/
theorem scraperSearch_policy_gate (query location txt : String)
    (page : Except JsError (List ScrapedRaw))
    (hq : jsBlank query = false) (hl : jsBlank location = false) :
    (scraperSearchBusinesses true query location (some txt) page
        = (.error (strError "Scraping not allowed by robots.txt"),
           [ScrapeEffect.robotsFetch])
      ↔ (jsIncludes txt "Disallow: /maps" = true ∨ specRobotsSectionBlocks txt = true))
    ∧ (scraperSearchBusinesses true query location none page).2
        = [ScrapeEffect.robotsFetch, ScrapeEffect.pageNavigation] := by
  constructor
  · unfold scraperSearchBusinesses respectRobotsTxt specRobotsSectionBlocks
    simp only [hq, hl, Bool.false_eq_true, if_false, if_true]
    by_cases hinc : jsIncludes txt "Disallow: /maps" = true
    · simp [hinc]
    · simp only [hinc, Bool.not_eq_true] at *
      by_cases hloop : robotsLinesAllow (splitChars '\n' txt.data) false = true
      · simp only [hinc, hloop, if_true, if_false]
        constructor
        · intro h
          exact absurd (congrArg Prod.snd h) (by cases page <;> simp [scraperNavigate])
        · rintro (h | h)
          · simp [hinc] at h
          · simp [hloop] at h
      · simp only [Bool.not_eq_true] at hloop
        simp [hinc, hloop]
  · unfold scraperSearchBusinesses
    simp only [hq, hl, Bool.false_eq_true, if_false, if_true]
    cases page <;> simp [scraperNavigate]

/-- Witness for the amended C5 at concrete inputs: a wildcard section
disallowing the root blocks the search. -/
theorem scraperSearch_policy_gate_witness :
    jsBlank "coffee" = false ∧ jsBlank "Tampa" = false ∧
    scraperSearchBusinesses true "coffee" "Tampa"
        (some "User-agent: *\nDisallow: /") (.ok [])
      = (.error (strError "Scraping not allowed by robots.txt"),
         [ScrapeEffect.robotsFetch]) :=
  ⟨rfl, rfl,
   ((scraperSearch_policy_gate "coffee" "Tampa" "User-agent: *\nDisallow: /"
       (.ok []) rfl rfl).1).2 (Or.inr (by decide))⟩

/-- The `source` provenance discriminator of unified results. -/
inductive Source
  | api
  | scraper
deriving DecidableEq, Repr

/-- `UnifiedBusinessResult` (maps-client, unified orchestrator).  The TS
`priceLevel?: number | string` union only ever receives the API search
path's number here, so it is a `Nat` option. -/
structure UnifiedBusinessResult where
  id : Option String
  name : String
  address : String
  location : Option GeoLocation
  rating : Option ℚ
  reviewCount : Option Nat
  phone : Option String
  website : Option String
  types : Option (List String)
  businessStatus : Option String
  priceLevel : Option Nat
  source : Source
deriving DecidableEq, Repr

/-- `MapsClient.mapApiResults`: field-for-field, tagged `api`; phone and
website are never set by this mapping. -/
def mapApiResults (results : List BusinessSearchResult) : List UnifiedBusinessResult :=
  results.map fun r =>
    { id := some r.id
      name := r.name
      address := r.address
      location := some r.location
      rating := r.rating
      reviewCount := r.reviewCount
      phone := none
      website := none
      types := r.types
      businessStatus := r.businessStatus
      priceLevel := r.priceLevel
      source := Source.api }

/-- `MapsClient.mapScraperResults`: tagged `scraper`; id, location, types,
status and price level are never set by this mapping. -/
def mapScraperResults (results : List ScrapedBusinessResult) : List UnifiedBusinessResult :=
  results.map fun r =>
    { id := none
      name := r.name
      address := r.address
      location := none
      rating := r.rating
      reviewCount := r.reviewCount
      phone := r.phone
      website := r.website
      types := none
      businessStatus := none
      priceLevel := none
      source := Source.scraper }

/-- Which sub-client paths one orchestrator search invoked, in order. -/
inductive PathStep
  | api
  | scraper
deriving DecidableEq, Repr

/-- The scraper-or-fallback tail of `MapsClient.searchBusinesses`
(part_001:101-119): try the scraper when configured; on its failure, if
the API was not preferred and a places client exists, try the API as last
resort (its failure propagates); otherwise rethrow the scraper failure;
with no scraper configured fail with the no-methods error.  `steps0` is
the trace of paths already attempted. -/
def mapsScraperPhase (hasPlaces hasScraper preferApi : Bool) (maxResults : Nat)
    (api : Except JsError (List BusinessSearchResult))
    (scraper : Except JsError (List ScrapedBusinessResult))
    (steps0 : List PathStep) :
    Except JsError (List UnifiedBusinessResult) × List PathStep :=
  if hasScraper then
    match scraper with
    | .ok rs =>
      (.ok ((mapScraperResults rs).take maxResults), steps0 ++ [PathStep.scraper])
    | .error e =>
      if !preferApi && hasPlaces then
        match api with
        | .ok rs =>
          (.ok ((mapApiResults rs).take maxResults),
           steps0 ++ [PathStep.scraper, PathStep.api])
        | .error e2 => (.error e2, steps0 ++ [PathStep.scraper, PathStep.api])
      else (.error e, steps0 ++ [PathStep.scraper])
  else
    (.error (strError
       "No search methods available. Please configure API key or enable scraping."),
     steps0)

/-- `MapsClient.searchBusinesses` (part_001:71-120).  `hasPlaces` and
`hasScraper` say which sub-clients the constructor created; the `api` and
`scraper` oracles are the outcomes of `searchWithApi` / `searchWithScraper`
(each is consulted at most once per call).  Options default as in the
source: `maxResults = 20`, `preferApi = config.useApiFirst`.  When the API
is preferred and available, its successful result is returned only if
non-empty after mapping — an empty API result falls through to the
scraper phase exactly like a failure. -/
def mapsSearchBusinesses (hasPlaces hasScraper useApiFirst : Bool)
    (maxResultsOpt : Option Nat) (preferApiOpt : Option Bool)
    (query location : String)
    (api : Except JsError (List BusinessSearchResult))
    (scraper : Except JsError (List ScrapedBusinessResult)) :
    Except JsError (List UnifiedBusinessResult) × List PathStep :=
  let maxResults := maxResultsOpt.getD 20
  let preferApi := preferApiOpt.getD useApiFirst
  if jsBlank query then (.error (strError "Query is required"), [])
  else if jsBlank location then (.error (strError "Location is required"), [])
  else if preferApi && hasPlaces then
    match api with
    | .ok rs =>
      let unified := mapApiResults rs
      if unified.length > 0 then (.ok (unified.take maxResults), [PathStep.api])
      else mapsScraperPhase hasPlaces hasScraper preferApi maxResults api scraper
             [PathStep.api]
    | .error _ =>
      mapsScraperPhase hasPlaces hasScraper preferApi maxResults api scraper
        [PathStep.api]
  else mapsScraperPhase hasPlaces hasScraper preferApi maxResults api scraper []

/-- A concrete scraper record for counterexamples. -/
def scrapedCafe : ScrapedBusinessResult :=
  { name := "Cafe X", address := "1 Main St", rating := none, reviewCount := none,
    phone := none, website := none, businessUrl := none }

/-- Counterexample to C1: with `preferApi = true`, an available structured
client and a structured path that *succeeds* with an empty list
(zero results), the orchestrator still invokes the scraping path and
returns its result — success of the structured path does not suffice to
skip scraping. -/
theorem mapsSearch_empty_api_success_falls_through :
    (mapsSearchBusinesses true true true none (some true) "coffee" "Tampa"
        (.ok []) (.ok [scrapedCafe])).2 = [PathStep.api, PathStep.scraper] ∧
    (mapsSearchBusinesses true true true none (some true) "coffee" "Tampa"
        (.ok []) (.ok [scrapedCafe])).1 = .ok (mapScraperResults [scrapedCafe]) :=
  ⟨rfl, rfl⟩

/-- **C1 (amended)**: with non-blank inputs, `preferApi` resolved true and
a structured client present, the structured path is attempted first;
whenever it succeeds with a *non-empty* list its mapped, truncated results
are returned and the scraping path is never invoked; the scraping path is
invoked (when a scraper exists) whenever the structured path fails *or*
succeeds with an empty list. -/
theorem mapsSearch_api_first (hasScraper useApiFirst : Bool)
    (maxResultsOpt : Option Nat) (preferApiOpt : Option Bool)
    (query location : String)
    (api : Except JsError (List BusinessSearchResult))
    (scraper : Except JsError (List ScrapedBusinessResult))
    (hq : jsBlank query = false) (hl : jsBlank location = false)
    (hp : preferApiOpt.getD useApiFirst = true) :
    ((mapsSearchBusinesses true hasScraper useApiFirst maxResultsOpt preferApiOpt
        query location api scraper).2.head? = some PathStep.api)
    ∧ (∀ rs, api = .ok rs → rs ≠ [] →
        mapsSearchBusinesses true hasScraper useApiFirst maxResultsOpt preferApiOpt
            query location api scraper
          = (.ok ((mapApiResults rs).take (maxResultsOpt.getD 20)), [PathStep.api]))
    ∧ (∀ e, api = .error e → hasScraper = true →
        PathStep.scraper ∈ (mapsSearchBusinesses true hasScraper useApiFirst
          maxResultsOpt preferApiOpt query location api scraper).2)
    ∧ (api = .ok [] → hasScraper = true →
        PathStep.scraper ∈ (mapsSearchBusinesses true hasScraper useApiFirst
          maxResultsOpt preferApiOpt query location api scraper).2) := by
  refine ⟨?_, fun rs hapi hne => ?_, fun e hapi hs => ?_, fun hapi hs => ?_⟩
  · unfold mapsSearchBusinesses mapsScraperPhase
    simp only [hq, hl, hp, Bool.false_eq_true, if_false, Bool.true_and, if_true]
    cases api with
    | ok rs =>
      by_cases hlen : (mapApiResults rs).length > 0 <;>
        simp [hlen, mapsScraperPhase] <;> cases scraper <;> simp [hp] <;> split <;> simp
    | error e =>
      simp only [mapsScraperPhase, hp]
      cases scraper <;> simp <;> split <;> simp
  · unfold mapsSearchBusinesses
    have hlen : (mapApiResults rs).length > 0 := by
      simpa [mapApiResults] using List.length_pos.mpr hne
    simp [hq, hl, hp, hapi, hlen]
  · unfold mapsSearchBusinesses mapsScraperPhase
    simp only [hq, hl, hp, hapi, hs]
    cases scraper <;> simp
  · unfold mapsSearchBusinesses mapsScraperPhase
    simp only [hq, hl, hp, hapi, hs, mapApiResults]
    cases scraper <;> simp

/-- Witness for the amended C1: a one-element API success is returned
as-is with no scraper step, and an API failure reaches the scraper. -/
theorem mapsSearch_api_first_witness :
    jsBlank "coffee" = false ∧ jsBlank "Tampa" = false ∧
    ((some true : Option Bool).getD false = true) ∧
    (mapsSearchBusinesses true true false none (some true) "coffee" "Tampa"
        (.error (strError "boom")) (.ok [scrapedCafe])).2
      = [PathStep.api, PathStep.scraper] ∧
    PathStep.scraper ∈ (mapsSearchBusinesses true true false none (some true)
        "coffee" "Tampa" (.error (strError "boom")) (.ok [scrapedCafe])).2 :=
  ⟨rfl, rfl, rfl, rfl,
   (mapsSearch_api_first true false none (some true) "coffee" "Tampa"
      (.error (strError "boom")) (.ok [scrapedCafe]) rfl rfl rfl).2.2.1
     (strError "boom") rfl rfl⟩

/-- **C7**: any successful orchestrator search returns at most
`maxResults` records (`20` when the caller passed no maximum), regardless
of which path produced them. -/
theorem mapsSearch_truncates (hasPlaces hasScraper useApiFirst : Bool)
    (maxResultsOpt : Option Nat) (preferApiOpt : Option Bool)
    (query location : String)
    (api : Except JsError (List BusinessSearchResult))
    (scraper : Except JsError (List ScrapedBusinessResult))
    (lst : List UnifiedBusinessResult)
    (h : (mapsSearchBusinesses hasPlaces hasScraper useApiFirst maxResultsOpt
            preferApiOpt query location api scraper).1 = .ok lst) :
    lst.length ≤ maxResultsOpt.getD 20 := by
  cases hasPlaces <;> cases hasScraper <;> cases api <;> cases scraper <;>
    by_cases h1 : jsBlank query = true <;> by_cases h2 : jsBlank location = true <;>
    by_cases h3 : preferApiOpt.getD useApiFirst = true <;>
    simp only [mapsSearchBusinesses, mapsScraperPhase, h1, h2, h3, Bool.true_and,
      Bool.false_and, Bool.and_true, Bool.and_false, Bool.not_true, Bool.not_false,
      Bool.false_eq_true, if_true, if_false, eq_self_iff_true] at h <;>
    first
      | (injection h with h; rw [← h]; simpa using List.length_take_le _ _)
      | (split at h <;>
         first
           | (injection h with h; rw [← h]; simpa using List.length_take_le _ _)
           | injection h)
      | injection h

/-- Witness for C7: nineteen-element default truncation at a concrete
call. -/
theorem mapsSearch_truncates_witness :
    (mapsSearchBusinesses true true true none none "coffee" "Tampa"
        (.ok []) (.ok [scrapedCafe])).1 = .ok (mapScraperResults [scrapedCafe]) ∧
    (mapScraperResults [scrapedCafe]).length ≤ (none : Option Nat).getD 20 :=
  ⟨rfl,
   mapsSearch_truncates true true true none none "coffee" "Tampa"
     (.ok []) (.ok [scrapedCafe]) (mapScraperResults [scrapedCafe]) rfl⟩

/-- `MapsClient.searchWithApi` (part_001:160-168): the places-client
search, per-attempt over a transport oracle, wrapped in the shared backoff
controller. -/
def searchWithApi (cfg : RateConfig) (query location : String)
    (transport : Nat → Except TransportError PlacesResponse) :
    RetryTrace (List BusinessSearchResult) :=
  retryWithBackoff cfg (fun k => (placesSearchBusinesses query location (transport k)).1)

/-- A transport that rejects every attempt with an axios HTTP 429. -/
def always429Transport : Nat → Except TransportError PlacesResponse :=
  fun _ => .error { isAxiosError := true, responseStatus := some 429,
                    code := none, message := none }

/-- Counterexample to C2: through the orchestrator's structured search
path, a transport that fails with HTTP 429 on every attempt is invoked
exactly once at the default `maxRetries = 3` — not `maxRetries + 1 = 4`
times — because the places client rewrites the 429 into a plain error
with the normalized message, which the backoff controller classifies as
non-retryable. -/
theorem searchWithApi_429_not_retried :
    (searchWithApi rcfgDefault "coffee shops" "Tampa, FL" always429Transport).invocations
      = 1 ∧
    rcfgDefault.maxRetries + 1 = 4 ∧
    (searchWithApi rcfgDefault "coffee shops" "Tampa, FL" always429Transport).result
      = .error (strError "Rate limit exceeded. Please try again later.") :=
  ⟨rfl, rfl, rfl⟩

/-- **C2 (amended)**: the backoff controller does classify a raw failure
carrying response status 429 as retryable; but an operation on the
structured search path surfaces a transport 429 as the normalized plain
message `"Rate limit exceeded. Please try again later."`, which the
controller classifies as non-retryable — so with a transport failing 429
on the first attempt the operation is invoked exactly once, with no
backoff delays, and the normalized failure is what triggers fallback. -/
theorem searchWithApi_429_translated_non_retryable (cfg : RateConfig)
    (query location : String)
    (transport : Nat → Except TransportError PlacesResponse)
    (t : TransportError)
    (hq : jsBlank query = false) (hl : jsBlank location = false)
    (ht : transport 0 = .error t)
    (hax : t.isAxiosError = true) (h429 : t.responseStatus = some 429) :
    isRetryableError
      { responseStatus := some 429, code := none, message := none } = true ∧
    searchWithApi cfg query location transport =
      { result := .error (strError "Rate limit exceeded. Please try again later."),
        invocations := 1, delays := [] } := by
  refine ⟨by decide, ?_⟩
  have hop : (placesSearchBusinesses query location (transport 0)).1
      = .error (strError "Rate limit exceeded. Please try again later.") := by
    rw [ht]
    unfold placesSearchBusinesses
    simp [hq, hl, hax, h429]
  exact retryWithBackoff_stops_on_non_retryable cfg _ _ hop (by decide)

/-- Witness for the amended C2 at concrete inputs. -/
theorem searchWithApi_429_translated_witness :
    jsBlank "coffee shops" = false ∧ jsBlank "Tampa, FL" = false ∧
    always429Transport 0 = .error { isAxiosError := true, responseStatus := some 429,
                                    code := none, message := none } ∧
    (isRetryableError { responseStatus := some 429, code := none, message := none } = true ∧
     searchWithApi rcfgDefault "coffee shops" "Tampa, FL" always429Transport =
       { result := .error (strError "Rate limit exceeded. Please try again later."),
         invocations := 1, delays := [] }) :=
  ⟨rfl, rfl, rfl,
   searchWithApi_429_translated_non_retryable rcfgDefault "coffee shops" "Tampa, FL"
     always429Transport _ rfl rfl rfl rfl rfl⟩

/-- **C8**: an empty or whitespace-only query or location makes all three
search operations — the orchestrator, the structured client and the
scraper — fail immediately with an error naming the missing field, with an
empty I/O trace (no sub-client invoked, no rate-limiter wait, no HTTP
request, no robots fetch, no browser navigation). -/
theorem blank_inputs_fail_before_io (hasPlaces hasScraper useApiFirst : Bool)
    (maxResultsOpt : Option Nat) (preferApiOpt : Option Bool)
    (respectRobots : Bool) (query location : String)
    (api : Except JsError (List BusinessSearchResult))
    (scraper : Except JsError (List ScrapedBusinessResult))
    (transport : Except TransportError PlacesResponse)
    (robotsDoc : Option String) (page : Except JsError (List ScrapedRaw)) :
    (jsBlank query = true →
      mapsSearchBusinesses hasPlaces hasScraper useApiFirst maxResultsOpt preferApiOpt
          query location api scraper
        = (.error (strError "Query is required"), []) ∧
      placesSearchBusinesses query location transport
        = (.error (strError "Query is required"), []) ∧
      scraperSearchBusinesses respectRobots query location robotsDoc page
        = (.error (strError "Query is required"), [])) ∧
    (jsBlank query = false → jsBlank location = true →
      mapsSearchBusinesses hasPlaces hasScraper useApiFirst maxResultsOpt preferApiOpt
          query location api scraper
        = (.error (strError "Location is required"), []) ∧
      placesSearchBusinesses query location transport
        = (.error (strError "Location is required"), []) ∧
      scraperSearchBusinesses respectRobots query location robotsDoc page
        = (.error (strError "Location is required"), [])) := by
  constructor
  · intro hq
    refine ⟨?_, ?_, ?_⟩ <;>
      simp [mapsSearchBusinesses, placesSearchBusinesses, scraperSearchBusinesses, hq]
  · intro hq hl
    refine ⟨?_, ?_, ?_⟩ <;>
      simp [mapsSearchBusinesses, placesSearchBusinesses, scraperSearchBusinesses, hq, hl]

/-- Witness for C8: the empty query and a whitespace-only location at
concrete calls. -/
theorem blank_inputs_fail_before_io_witness :
    (jsBlank "" = true ∧
      mapsSearchBusinesses true true true none none "" "Tampa" (.ok []) (.ok [])
        = (.error (strError "Query is required"), [])) ∧
    (jsBlank "coffee" = false ∧ jsBlank "  " = true ∧
      scraperSearchBusinesses true "coffee" "  " none (.ok [])
        = (.error (strError "Location is required"), [])) :=
  ⟨⟨rfl,
    ((blank_inputs_fail_before_io true true true none none true "" "Tampa"
        (.ok []) (.ok []) (.ok { status := "OK", error_message := none, results := none })
        none (.ok [])).1 rfl).1⟩,
   ⟨rfl, rfl,
    ((blank_inputs_fail_before_io true true true none none true "coffee" "  "
        (.ok []) (.ok []) (.ok { status := "OK", error_message := none, results := none })
        none (.ok [])).2 rfl rfl).2.2⟩⟩

/-- State of one `ExponentialBackoffRateLimiter` pacing queue
(rate-limiter.ts:15-55) under cooperative interleaving.  Callers get
consecutive ids (`nextId`); `queue` holds waiting callers in arrival
order (`requestQueue`), `released` the callers already resolved, in
resolution order; `processing` is the source's boolean guard; `drains`
counts the `processQueue` executions currently alive — the code never
stores this number, it is the quantity the guard is meant to bound. -/
structure LimiterState where
  queue : List Nat
  released : List Nat
  processing : Bool
  drains : Nat
  nextId : Nat
deriving DecidableEq, Repr

/-- The fresh instance: empty queue, guard down, no drain running. -/
def limiterInit : LimiterState :=
  { queue := [], released := [], processing := false, drains := 0, nextId := 0 }

/-- `waitForNextRequest`: push the caller, then — synchronously, with no
interleaving point in between — start `processQueue` (which immediately
sets the guard) when the guard is down. -/
def enqueueStep (s : LimiterState) : LimiterState :=
  { queue := s.queue ++ [s.nextId]
    released := s.released
    processing := true
    drains := if s.processing then s.drains else s.drains + 1
    nextId := s.nextId + 1 }

/-- One iteration of the `while` loop of an active `processQueue`:
`shift()` the head and `resolve()` it (then suspend on the pacing
delay). -/
def releaseStep (s : LimiterState) : LimiterState :=
  { s with queue := s.queue.tail, released := s.released ++ s.queue.take 1 }

/-- Exit of an active `processQueue` once the queue is empty: clear the
guard, the drain run ends. -/
def stopStep (s : LimiterState) : LimiterState :=
  { s with processing := false, drains := s.drains - 1 }

/-- The interleaving semantics of the pacing queue: enqueues may happen
at any time; an active drain advances only while the guard is up, and
only terminates on an empty queue. -/
inductive LimiterStep : LimiterState → LimiterState → Prop
  | enqueue (s : LimiterState) : LimiterStep s (enqueueStep s)
  | release (s : LimiterState) (hp : s.processing = true) (hq : s.queue ≠ []) :
      LimiterStep s (releaseStep s)
  | stop (s : LimiterState) (hp : s.processing = true) (hq : s.queue = []) :
      LimiterStep s (stopStep s)

/-- **C6**: in every state reachable from a fresh rate limiter, the
released callers followed by the still-queued callers are exactly the
callers in enqueue order (`List.range nextId`) — strict FIFO, nobody is
released before an earlier-enqueued caller and nobody is dropped — and at
most one queue-drain process is alive, with the `processing` flag up
exactly while that one drain runs. -/
theorem limiter_fifo_single_drain (s : LimiterState)
    (h : Relation.ReflTransGen LimiterStep limiterInit s) :
    s.released ++ s.queue = List.range s.nextId ∧
    s.drains ≤ 1 ∧ (s.processing = true ↔ s.drains = 1) := by
  induction h with
  | refl => simp [limiterInit]
  | @tail t c _ hstep ih =>
    obtain ⟨hfifo, hle, hflag⟩ := ih
    cases hstep with
    | enqueue =>
      refine ⟨?_, ?_, ?_⟩
      · simp only [enqueueStep]
        rw [← List.append_assoc, hfifo, List.range_succ]
      · by_cases hp : t.processing = true <;> simp_all [enqueueStep] <;> omega
      · by_cases hp : t.processing = true <;> simp_all [enqueueStep] <;> omega
    | release hp hq =>
      refine ⟨?_, hle, hflag⟩
      cases hqe : t.queue with
      | nil => exact absurd hqe hq
      | cons a rest =>
        simp only [releaseStep, hqe, List.take, List.tail]
        rw [List.append_assoc, ← hfifo, hqe]
        simp
    | stop hp hq =>
      have hd : t.drains = 1 := hflag.mp hp
      refine ⟨by simpa [stopStep, hq] using hfifo, by simp [stopStep, hd], ?_⟩
      simp [stopStep, hd]

/-- Witness for C6 at a concrete reachable state: enqueue two callers,
release one. -/
theorem limiter_fifo_single_drain_witness :
    (releaseStep (enqueueStep (enqueueStep limiterInit))).released ++
        (releaseStep (enqueueStep (enqueueStep limiterInit))).queue
      = List.range (releaseStep (enqueueStep (enqueueStep limiterInit))).nextId ∧
    (releaseStep (enqueueStep (enqueueStep limiterInit))).drains ≤ 1 ∧
    ((releaseStep (enqueueStep (enqueueStep limiterInit))).processing = true ↔
      (releaseStep (enqueueStep (enqueueStep limiterInit))).drains = 1) :=
  limiter_fifo_single_drain _
    (Relation.ReflTransGen.tail
      (Relation.ReflTransGen.tail
        (Relation.ReflTransGen.single (LimiterStep.enqueue limiterInit))
        (LimiterStep.enqueue (enqueueStep limiterInit)))
      (LimiterStep.release (enqueueStep (enqueueStep limiterInit)) rfl (by decide)))

/-- The `scraping` block of `MapsConfig` (config.ts:120-128). -/
structure ScrapingConfig where
  enabled : Bool
  headless : Bool
  timeout : Int
  maxRetries : Int
  respectRobots : Bool
  userAgent : String
  viewportWidth : Int
  viewportHeight : Int
deriving DecidableEq, Repr

/-- The `rateLimiting` block of `MapsConfig` (config.ts:129-135). -/
structure RateLimitingConfig where
  requestsPerSecond : Int
  maxRetries : Int
  baseDelay : Int
  maxDelay : Int
  backoffMultiplier : ℚ
deriving DecidableEq, Repr

/-- `MapsConfig` (config.ts:117-136). -/
structure MapsConfig where
  googlePlacesApiKey : Option String
  useApiFirst : Bool
  scraping : ScrapingConfig
  rateLimiting : RateLimitingConfig
deriving DecidableEq, Repr

/-- `MapsConfigManager.validateConfig` (config.ts:174-234): the error
messages accumulated in source order. -/
def validateConfigErrors (c : MapsConfig) : List String :=
  (if !optStrTruthy c.googlePlacesApiKey && !c.scraping.enabled then
     ["Either Google Places API key or web scraping must be enabled"] else []) ++
  (if c.rateLimiting.requestsPerSecond ≤ 0 then
     ["Rate limiting requests per second must be positive"] else []) ++
  (if c.rateLimiting.maxRetries < 0 then
     ["Rate limiting max retries must be non-negative"] else []) ++
  (if c.rateLimiting.baseDelay ≤ 0 then
     ["Rate limiting base delay must be positive"] else []) ++
  (if c.rateLimiting.maxDelay ≤ 0 then
     ["Rate limiting max delay must be positive"] else []) ++
  (if c.rateLimiting.backoffMultiplier ≤ 1 then
     ["Rate limiting backoff multiplier must be greater than 1"] else []) ++
  (if c.scraping.enabled then
     (if c.scraping.timeout ≤ 0 then ["Scraping timeout must be positive"] else []) ++
     (if c.scraping.maxRetries < 0 then
        ["Scraping max retries must be non-negative"] else []) ++
     (if jsBlank c.scraping.userAgent then ["Scraping user agent is required"] else []) ++
     (if c.scraping.viewportWidth ≤ 0 || c.scraping.viewportHeight ≤ 0 then
        ["Scraping viewport dimensions must be positive"] else [])
   else [])

/-- `validateConfig().isValid`: no accumulated errors. -/
def validateConfigIsValid (c : MapsConfig) : Bool :=
  (validateConfigErrors c).isEmpty

/-- A `Partial<MapsConfig>` constructor override: each top-level property
either absent or replacing the base value wholesale (JS object spread is
shallow). -/
structure PartialMapsConfig where
  googlePlacesApiKey : Option (Option String)
  useApiFirst : Option Bool
  scraping : Option ScrapingConfig
  rateLimiting : Option RateLimitingConfig
deriving DecidableEq, Repr

/-- `{ ...mapsConfig.getConfig(), ...config }`. -/
def mergeConfig (base : MapsConfig) (o : PartialMapsConfig) : MapsConfig :=
  { googlePlacesApiKey := o.googlePlacesApiKey.getD base.googlePlacesApiKey
    useApiFirst := o.useApiFirst.getD base.useApiFirst
    scraping := o.scraping.getD base.scraping
    rateLimiting := o.rateLimiting.getD base.rateLimiting }

/-- What a successful `MapsClient` construction yields: the merged
per-instance config and which sub-clients were created. -/
structure MapsClientState where
  config : MapsConfig
  hasPlaces : Bool
  hasScraper : Bool
deriving DecidableEq, Repr

/-- `MapsClient.constructor` (part_001:40-69): merge the override over the
singleton's config, but validate `mapsConfig.validateConfig()` — i.e. the
*singleton's own* config, not the merged one — and throw on invalidity;
then create the places client when the merged key is truthy (the
`GooglePlacesClient` constructor itself throws on a whitespace-only key)
and the scraper when merged scraping is enabled. -/
def mapsClientConstruct (singletonConfig : MapsConfig)
    (override : Option PartialMapsConfig) : Except JsError MapsClientState :=
  let cfg :=
    match override with
    | some o => mergeConfig singletonConfig o
    | none => singletonConfig
  if validateConfigIsValid singletonConfig then
    match cfg.googlePlacesApiKey with
    | some k =>
      if k ≠ "" then
        if jsBlank k then .error (strError "API key is required")
        else .ok { config := cfg, hasPlaces := true, hasScraper := cfg.scraping.enabled }
      else .ok { config := cfg, hasPlaces := false, hasScraper := cfg.scraping.enabled }
    | none => .ok { config := cfg, hasPlaces := false, hasScraper := cfg.scraping.enabled }
  else
    .error (strError ("Invalid configuration: " ++
      String.intercalate ", " (validateConfigErrors singletonConfig)))

/-- A valid configuration (the one the repository's tests construct). -/
def cfgValidBase : MapsConfig :=
  { googlePlacesApiKey := some "test-key"
    useApiFirst := true
    scraping := { enabled := true, headless := true, timeout := 30000,
                  maxRetries := 3, respectRobots := true, userAgent := "Test Agent",
                  viewportWidth := 1920, viewportHeight := 1080 }
    rateLimiting := { requestsPerSecond := 10, maxRetries := 3, baseDelay := 1000,
                      maxDelay := 30000, backoffMultiplier := 2 } }

/-- An override whose rate-limiting block is invalid
(`requestsPerSecond = 0`). -/
def ovInvalidRate : PartialMapsConfig :=
  { googlePlacesApiKey := none, useApiFirst := none, scraping := none,
    rateLimiting := some { requestsPerSecond := 0, maxRetries := 3, baseDelay := 1000,
                           maxDelay := 30000, backoffMultiplier := 2 } }

/-- `cfgValidBase` broken the same way the override above is. -/
def cfgInvalidRate : MapsConfig :=
  { cfgValidBase with
    rateLimiting := { requestsPerSecond := 0, maxRetries := 3, baseDelay := 1000,
                      maxDelay := 30000, backoffMultiplier := 2 } }

/-- An override that repairs the rate-limiting block. -/
def ovFixRate : PartialMapsConfig :=
  { googlePlacesApiKey := none, useApiFirst := none, scraping := none,
    rateLimiting := some { requestsPerSecond := 10, maxRetries := 3, baseDelay := 1000,
                           maxDelay := 30000, backoffMultiplier := 2 } }

/-- **C10**: the constructor's accept/reject decision validates the global
singleton configuration, not the merged per-instance one: whenever the
singleton config is invalid, construction fails for every override
(a valid override cannot prevent the failure); and there is a valid
singleton config with an override making the merged config invalid that
is nevertheless accepted. -/
theorem mapsClientConstruct_validates_singleton :
    (∀ s o, validateConfigIsValid s = false →
      (mapsClientConstruct s (some o)).isOk = false) ∧
    (∃ s o, validateConfigIsValid s = true ∧
      validateConfigIsValid (mergeConfig s o) = false ∧
      (mapsClientConstruct s (some o)).isOk = true) := by
  constructor
  · intro s o h
    simp [mapsClientConstruct, h, Except.isOk, Except.toBool]
  · exact ⟨cfgValidBase, ovInvalidRate, rfl, rfl, rfl⟩

/-- Witness for C10: with the invalid singleton config, even the repairing
override cannot make construction succeed, although the merged config is
valid. -/
theorem mapsClientConstruct_validates_singleton_witness :
    validateConfigIsValid cfgInvalidRate = false ∧
    validateConfigIsValid (mergeConfig cfgInvalidRate ovFixRate) = true ∧
    (mapsClientConstruct cfgInvalidRate (some ovFixRate)).isOk = false :=
  ⟨rfl, rfl,
   mapsClientConstruct_validates_singleton.1 cfgInvalidRate ovFixRate rfl⟩
